import Mathlib

/-!
Verification of the news aggregation service (Shiva911-as/news-app).

The definitions below are a shallow embedding of the Python services:
`services/cache_manager.py`, `services/cached_news_service.py`,
`services/news_service.py`, `services/gnews_service.py`,
`services/fallback_data.py` and `models/user_profile.py`.
Python strings are modelled as `String` / `List Char` (all relevant data is
ASCII), Python floats as exact rationals `ℚ`, wall-clock instants as rational
seconds, and calendar dates as naturals.  Fallible I/O is made explicit:
read outcomes are `Option`s and write outcomes are enumerated.
-/

namespace NewsApp

/-- Whitespace test used by Python `str.strip` (the whitespace characters that
occur in the repository's data). -/
def isPyWS (c : Char) : Bool := c = ' ' || c = '\t' || c = '\n' || c = '\r'

/-- Python `str.strip` on a character list: drop whitespace from both ends. -/
def trimChars (l : List Char) : List Char :=
  ((l.dropWhile isPyWS).reverse.dropWhile isPyWS).reverse

/-- Python `str.lower` on a character list (ASCII case mapping). -/
def lowerChars (l : List Char) : List Char := l.map Char.toLower

/-- Python substring containment `need in hay`. -/
def containsSub (hay need : List Char) : Bool :=
  need.isPrefixOf hay ||
    match hay with
    | [] => false
    | _ :: t => containsSub t need

/-- An article record as the services pass it around (a NewsAPI-style dict).
`publishedAt` records the `publishedAt` field together with how
`datetime.fromisoformat` treats it: `none` when the field is missing or empty
(falsy in Python), `some none` when a non-empty value is present but fails to
parse (the parse raises), and `some (some t)` when it parses to the instant
`t`, measured in seconds. -/
structure Article where
  title : String
  description : String
  url : String
  publishedAt : Option (Option ℚ)
deriving DecidableEq, Repr

/-- The deduplication key computed throughout the services:
`article.get('title', '').strip().lower()`
(news_service.py line 387, gnews_service.py line 298, and the analogous
loops in cached_news_service.py). -/
def normTitle (a : Article) : List Char := lowerChars (trimChars a.title.data)

/-- The title-dedup loop body shared by `NewsService.get_trending_articles`
(news_service.py lines 383-390) and
`GNewsService.get_comprehensive_indian_news` (gnews_service.py lines
293-304): walk the list keeping a `seen` set of normalized titles; an article
is kept only when its normalized title is non-empty (`if title`) and not yet
seen, in which case the title is added to `seen`. -/
def dedupeAux : List Article → List (List Char) → List Article
  | [], _ => []
  | a :: rest, seen =>
    if normTitle a ≠ [] ∧ normTitle a ∉ seen then
      a :: dedupeAux rest (normTitle a :: seen)
    else
      dedupeAux rest seen

/-- Title-based deduplication with an initially empty `seen` set (news_service.py
lines 383-390, gnews_service.py lines 293-304). -/
def dedupe (l : List Article) : List Article := dedupeAux l []

/-- Modelled from the spec wording for deduplication, for comparison with the
code: keep the first occurrence per normalized title, with no further
condition on the title. -/
def dedupeSpecAux : List Article → List (List Char) → List Article
  | [], _ => []
  | a :: rest, seen =>
    if normTitle a ∉ seen then
      a :: dedupeSpecAux rest (normTitle a :: seen)
    else
      dedupeSpecAux rest seen

/-- Spec-side deduplication: first occurrence per normalized title wins,
including articles whose normalized title is empty. -/
def dedupeSpec (l : List Article) : List Article := dedupeSpecAux l []

/-- A cache file's parsed content: the write timestamp (in seconds) and the
stored article list (cache_manager.py lines 126-131). -/
structure CacheEntry where
  timestamp : ℚ
  articles : List Article
deriving DecidableEq, Repr

/-- The on-disk state of one cache file: missing, unreadable (truncated or
partially written JSON, so `json.load` raises and the `except` branches of
cache_manager.py report the cache as invalid), or a well-formed entry. -/
inductive CacheFile where
  | absent
  | corrupt
  | stored (e : CacheEntry)
deriving DecidableEq, Repr

/-- SmartCacheManager._is_cache_valid (cache_manager.py lines 85-97): the file
must exist and parse, and then `datetime.now() - cached_time < self.cache_duration`
must hold — a strict inequality. -/
def is_cache_valid (duration now : ℚ) : CacheFile → Bool
  | .absent => false
  | .corrupt => false
  | .stored e => decide (now - e.timestamp < duration)

/-- SmartCacheManager.get_cached_articles (cache_manager.py lines 99-117):
return the stored articles when the file is valid, `None` otherwise. -/
def get_cached_articles (duration now : ℚ) : CacheFile → Option (List Article)
  | .stored e => if is_cache_valid duration now (.stored e) then some e.articles else none
  | _ => none

/-- The possible outcomes of the file write performed by
`SmartCacheManager.save_articles_to_cache`: the write succeeds, opening the
file fails (e.g. permissions), or the write fails after the file was opened
(e.g. disk full during `json.dump`). -/
inductive WriteOutcome where
  | ok
  | openFail
  | writeFail
deriving DecidableEq, Repr

/-- SmartCacheManager.save_articles_to_cache (cache_manager.py lines 119-141).
The file is opened with mode 'w', which truncates any existing content before
`json.dump` writes the new JSON, and every error lands in the `except` branch
returning False.  So: if opening itself fails the previous file content is
untouched, but if the dump fails midway the file is left truncated or
partially written — unreadable JSON. -/
def save_articles_to_cache (prev : CacheFile) (now : ℚ) (articles : List Article) :
    WriteOutcome → Bool × CacheFile
  | .ok => (true, .stored ⟨now, articles⟩)
  | .openFail => (false, prev)
  | .writeFail => (false, .corrupt)

/-- The GNews quota state of CachedNewsService (cached_news_service.py lines
37-39): requests made today and the date of the last counter reset.  Dates are
abstracted as naturals; `none` models the initial `last_reset_date = None`. -/
structure GnewsQuota where
  gnews_requests_today : ℕ
  last_reset_date : Option ℕ
deriving DecidableEq, Repr

/-- The daily request budget `gnews_daily_limit = 95`
(cached_news_service.py line 38). -/
def gnews_daily_limit : ℕ := 95

/-- CachedNewsService._can_use_gnews (cached_news_service.py lines 46-58):
reset the counter to 0 and stamp today when the stored reset date differs from
today, then return `gnews_requests_today < gnews_daily_limit`.  The result is
the returned boolean together with the updated state. -/
def can_use_gnews (s : GnewsQuota) (today : ℕ) : Bool × GnewsQuota :=
  let s1 := if s.last_reset_date ≠ some today then
      { gnews_requests_today := 0, last_reset_date := some today }
    else s
  (decide (s1.gnews_requests_today < gnews_daily_limit), s1)

/-- CachedNewsService._increment_gnews_usage (cached_news_service.py lines
60-62): increment the counter unconditionally. -/
def increment_gnews_usage (s : GnewsQuota) : GnewsQuota :=
  { s with gnews_requests_today := s.gnews_requests_today + 1 }

/-- UserProfile.learn_from_article, history part (user_profile.py lines
112-129): the new read record is appended at the end of `read_history`
(newest last). -/
def learn_from_article {α : Type} (read_history : List α) (entry : α) : List α :=
  read_history ++ [entry]

/-- The read history that UserProfile._save_profile actually persists
(user_profile.py line 48): Python `self.read_history[-100:]`, i.e. the last
100 entries; for a shorter history this is the whole history. -/
def persisted_read_history {α : Type} (read_history : List α) : List α :=
  read_history.drop (read_history.length - 100)

/-- An article together with the text-match statistics that
NewsService._calculate_quality_score (news_service.py lines 397-457) derives
from its lowered title+description text and from its source, carried as
fields so that the scoring arithmetic is embedded exactly while regex
matching stays outside the model: `clickbaitMatches` is the number of the six
clickbait regex patterns (lines 45-52) that `re.search` finds in the content,
`qualityMatches` the number of quality_keywords (lines 62-66) occurring as
substrings, `authoritySource` whether the source id is listed in
indian_sources (lines 55-59) or the source name contains one of the markers
at line 418, `entertainmentMatches` / `indianMatches` / `techMatches` /
`cricketMatches` / `sportsMatches` the counts for the keyword lists at lines
422, 428, 433, 438 and 445, and `category` the article's category field. -/
structure ArticleF extends Article where
  clickbaitMatches : ℕ
  qualityMatches : ℕ
  authoritySource : Bool
  entertainmentMatches : ℕ
  indianMatches : ℕ
  techMatches : ℕ
  cricketMatches : ℕ
  sportsMatches : ℕ
  category : String
deriving DecidableEq, Repr

/-- The category term of NewsService._calculate_quality_score
(news_service.py lines 450-455): +2.0 when the lowered category is 'cricket',
+1.0 when it is 'sports', 'football' or 'other_sports'. -/
def category_bonus (category : String) : ℚ :=
  if lowerChars category.data = "cricket".data then 2
  else if lowerChars category.data = "sports".data
         ∨ lowerChars category.data = "football".data
         ∨ lowerChars category.data = "other_sports".data then 1
  else 0

/-- The running total of NewsService._calculate_quality_score before the final
clamp (news_service.py lines 404-455): base 5.0, minus 2.0 per clickbait
pattern found, plus 0.5 per quality keyword, plus 2.0 for an authority
source, minus 3.0 when more than two entertainment keywords occur, plus 0.3
per Indian keyword, plus 0.4 per tech keyword, plus 3.0 when any cricket
keyword occurs, plus 1.5 when any other-sports keyword occurs, plus the
category term.  Python floats are modelled as exact rationals. -/
def quality_pre_score (a : ArticleF) : ℚ :=
  5 - 2 * a.clickbaitMatches
    + 0.5 * a.qualityMatches
    + (if a.authoritySource then 2 else 0)
    - (if 2 < a.entertainmentMatches then 3 else 0)
    + 0.3 * a.indianMatches
    + 0.4 * a.techMatches
    + (if 0 < a.cricketMatches then 3 else 0)
    + (if 0 < a.sportsMatches then 1.5 else 0)
    + category_bonus a.category

/-- NewsService._calculate_quality_score (news_service.py lines 397-457): the
running total clamped by `max(0.0, score)` at line 457. -/
def calculate_quality_score (a : ArticleF) : ℚ :=
  max 0 (quality_pre_score a)

/-- NewsService._is_recent_article (news_service.py lines 459-476): a missing
or empty publishedAt hits `if not published_at: return False`; a present but
unparsable value raises inside the `try`, and the `except` branch returns
True; otherwise the age in hours is compared with `<=` against the
threshold. -/
def is_recent_article (now : ℚ) (a : ArticleF) (hours_threshold : ℚ) : Bool :=
  match a.publishedAt with
  | none => false
  | some none => true
  | some (some t) => decide ((now - t) / 3600 ≤ hours_threshold)

/-- The recency bonus added inside NewsService._filter_and_prioritize_articles
(news_service.py lines 495-499): +1.0 within 24 hours, else +0.5 within 48
hours, else 0. -/
def recency_bonus (now : ℚ) (a : ArticleF) : ℚ :=
  if is_recent_article now a 24 then 1
  else if is_recent_article now a 48 then 0.5
  else 0

/-- NewsService._filter_and_prioritize_articles (news_service.py lines
478-510): skip articles with a falsy title or description, keep those whose
quality score is at least 3.0 paired with score plus recency bonus, sort by
score descending (Python's stable sort), and return the articles without the
scores. -/
def filter_and_prioritize_articles (now : ℚ) (articles : List ArticleF) : List ArticleF :=
  let scored := articles.filterMap (fun a =>
    if a.title = "" ∨ a.description = "" then none
    else
      let q := calculate_quality_score a
      if 3 ≤ q then some (q + recency_bonus now a, a) else none)
  (scored.mergeSort (fun x y => decide (y.1 ≤ x.1))).map (fun p => p.2)

/-- The per-category keyword sets of
CachedNewsService._get_gnews_category_articles (cached_news_service.py lines
525-537), with the `category_keywords.get(category, ['india', 'news'])`
default of line 539. -/
def gnewsCategoryKeywords (category : String) : List String :=
  if category = "home" then
    ["india", "breaking", "news", "today", "latest", "current"]
  else if category = "business" then
    ["business", "economy", "stock", "market", "sensex", "nifty", "rbi", "rupee",
     "finance", "banking", "investment", "corporate"]
  else if category = "sports" then
    ["cricket", "ipl", "sports", "match", "tournament", "team", "player", "game",
     "football", "badminton", "tennis"]
  else if category = "technology" then
    ["technology", "tech", "ai", "artificial intelligence", "startup", "innovation",
     "isro", "space", "digital", "software", "app"]
  else if category = "entertainment" then
    ["bollywood", "entertainment", "movie", "film", "actor", "actress", "celebrity",
     "music", "show", "streaming"]
  else if category = "politics" then
    ["politics", "election", "government", "parliament", "modi", "bjp", "congress",
     "minister", "policy", "vote"]
  else if category = "mobile" then
    ["mobile", "smartphone", "phone", "launch", "oneplus", "samsung", "iphone",
     "android", "device"]
  else if category = "startups" then
    ["startup", "funding", "venture", "capital", "unicorn", "investment",
     "entrepreneur", "innovation"]
  else if category = "international" then
    ["international", "global", "foreign", "policy", "relations", "trade", "world",
     "country"]
  else if category = "automobile" then
    ["car", "automobile", "automotive", "vehicle", "tata", "mahindra", "launch",
     "electric"]
  else if category = "miscellaneous" then
    ["news", "updates", "current", "affairs", "general", "various", "other"]
  else ["india", "news"]

/-- The text an article is matched against in
CachedNewsService._get_gnews_category_articles (cached_news_service.py lines
544-546): `f"{title} {description}"` with both parts lowered. -/
def contentChars (a : Article) : List Char :=
  lowerChars a.title.data ++ [' '] ++ lowerChars a.description.data

/-- The keyword hit count of cached_news_service.py line 549:
`sum(1 for keyword in keywords if keyword in content)`. -/
def hitCount (keywords : List String) (a : Article) : ℕ :=
  (keywords.filter (fun k => containsSub (contentChars a) k.data)).length

/-- The filtering core of CachedNewsService._get_gnews_category_articles
(cached_news_service.py lines 539-563): keep the articles with a positive
keyword hit count, sort them by hit count descending (Python's stable sort);
when fewer than `page_size` remain, extend with the non-matching master
articles, in master order, up to `page_size`; finally truncate to
`page_size`.  (The code computes the backfill as
`[a for a in master_articles if a not in filtered_articles]`; since the hit
count is a function of an article's content and matching articles were
annotated in place with a `relevance_score` key, that comprehension selects
exactly the articles with hit count 0.) -/
def gnewsCategoryFilter (master : List Article) (category : String) (page_size : ℕ) :
    List Article :=
  let kw := gnewsCategoryKeywords category
  let matched := master.filter (fun a => decide (0 < hitCount kw a))
  let sorted := matched.mergeSort (fun a b => decide (hitCount kw b ≤ hitCount kw a))
  let general := master.filter (fun a => ! decide (0 < hitCount kw a))
  let extended :=
    if sorted.length < page_size then sorted ++ general.take (page_size - sorted.length)
    else sorted
  extended.take page_size

/-- CachedNewsService._get_gnews_category_articles (cached_news_service.py
lines 515-566): fail with an error message when no master articles are
available (line 521), otherwise return the filtered list as a success. -/
def get_gnews_category_articles (master : List Article) (category : String)
    (page_size : ℕ) : Bool × List Article × Option String :=
  if master = [] then (false, [], some "No master articles available")
  else (true, gnewsCategoryFilter master category page_size, none)

/-- The static fallback article set FALLBACK_ARTICLES of
services/fallback_data.py (lines 9-109).  The publish instants are relative
to the wall clock `now` at access time (1, 3, 5, 7, 10, 12, 14, 16, 18 and 20
hours before `now`); the text fields are the literals from the source. -/
def fallbackArticles (now : ℚ) : List Article :=
  [⟨"Breaking: PM Modi Announces Major Digital India Initiative",
    "Prime Minister Narendra Modi unveiled a comprehensive digital transformation program aimed at making India a global technology leader.",
    "https://timesofindia.indiatimes.com/india/digital-india",
    some (some (now - 1 * 3600))⟩,
   ⟨"Indian Cricket Team Wins Historic Series Against Australia",
    "Team India secured a remarkable victory in the Test series, marking their best performance on Australian soil in decades.",
    "https://www.espncricinfo.com/series/india-tour-of-australia",
    some (some (now - 3 * 3600))⟩,
   ⟨"Sensex Hits All-Time High as Indian Economy Shows Strong Growth",
    "The BSE Sensex reached a historic milestone crossing 75,000 points driven by robust performance in banking and IT sectors.",
    "https://economictimes.indiatimes.com/markets/stocks/news",
    some (some (now - 5 * 3600))⟩,
   ⟨"ISRO Successfully Launches Chandrayaan-4 Mission to Moon",
    "India's space agency achieved another milestone with the successful launch of its fourth lunar mission, showcasing indigenous technology.",
    "https://www.ndtv.com/india-news/isro-chandrayaan-mission",
    some (some (now - 7 * 3600))⟩,
   ⟨"Healthcare Innovation: New Treatment Shows Promise",
    "Medical researchers have developed a new treatment approach that shows significant promise in clinical trials.",
    "https://www.medicalnewstoday.com/articles/healthcare-innovation-india-2024",
    some (some (now - 10 * 3600))⟩,
   ⟨"Space Exploration: Mission to Mars Gets Green Light",
    "Space agency announces approval for ambitious Mars exploration mission scheduled for next year.",
    "https://www.space.com/india-mars-mission-2024-announcement",
    some (some (now - 12 * 3600))⟩,
   ⟨"Entertainment: Blockbuster Movie Breaks Box Office Records",
    "The latest superhero movie has shattered previous box office records in its opening weekend.",
    "https://www.hollywoodreporter.com/movies/movie-news/blockbuster-box-office-records-2024",
    some (some (now - 14 * 3600))⟩,
   ⟨"Education: Universities Embrace Digital Learning Revolution",
    "Higher education institutions are rapidly adopting new digital technologies to enhance student learning experiences.",
    "https://www.educationtimes.com/universities-digital-learning-revolution-2024",
    some (some (now - 16 * 3600))⟩,
   ⟨"Technology: Quantum Computing Milestone Achieved",
    "Scientists have achieved a significant breakthrough in quantum computing that could revolutionize data processing.",
    "https://www.sciencedaily.com/releases/2024/10/quantum-computing-breakthrough.htm",
    some (some (now - 18 * 3600))⟩,
   ⟨"Business: Startup Unicorn Valued at $10 Billion",
    "A rapidly growing startup has achieved unicorn status with a valuation exceeding $10 billion in latest funding round.",
    "https://yourstory.com/2024/10/startup-unicorn-billion-valuation-funding",
    some (some (now - 20 * 3600))⟩]

/-- The query filter of fallback_data.get_fallback_articles (lines 274-280):
`query_lower in article['title'].lower() or query_lower in
article['description'].lower()`. -/
def queryMatches (query : String) (a : Article) : Bool :=
  containsSub (lowerChars a.title.data) (lowerChars query.data) ||
  containsSub (lowerChars a.description.data) (lowerChars query.data)

/-- fallback_data.get_fallback_articles (lines 260-286): copy the static set,
filter it by the query when one is given, shuffle, and return the first
`page_size` articles.  `random.shuffle` is modelled by a caller-supplied
permutation `shuffle`. -/
def get_fallback_articles (shuffle : List Article → List Article) (now : ℚ)
    (page_size : ℕ) (query : Option String) : List Article :=
  let articles := fallbackArticles now
  let filtered := match query with
    | some q => articles.filter (queryMatches q)
    | none => articles
  (shuffle filtered).take page_size

/-- fallback_data.search_fallback (lines 346-348). -/
def search_fallback (shuffle : List Article → List Article) (now : ℚ)
    (query : String) (page_size : ℕ) : List Article :=
  get_fallback_articles shuffle now page_size (some query)

/-- The per-article validity filter that
CachedNewsService.get_cached_category_news applies to provider results
(cached_news_service.py lines 756-762 and 807-813): a non-empty url that does
not start with 'https://removed.com', and a title longer than 10
characters. -/
def validArticle (a : Article) : Bool :=
  decide (a.url ≠ "") && ! ("https://removed.com".data.isPrefixOf a.url.data)
    && decide (a.title ≠ "") && decide (10 < a.title.data.length)

/-- The per-category search query lists of
CachedNewsService.get_cached_category_news (cached_news_service.py lines
730-742), with the `search_queries.get(category, ['India news'])` default of
line 744. -/
def categorySearchQueries (category : String) : List String :=
  if category = "sports" then ["India cricket", "IPL cricket", "Indian sports"]
  else if category = "business" then ["India economy", "Indian business", "India stock market"]
  else if category = "technology" then ["India technology", "Indian startups", "India tech"]
  else if category = "entertainment" then ["Bollywood", "Indian cinema", "India entertainment"]
  else if category = "politics" then ["India politics", "Indian government", "India election"]
  else if category = "home" then ["India news", "India breaking news", "India latest"]
  else if category = "startups" then ["India startup", "Indian unicorn", "India funding"]
  else if category = "mobile" then ["India smartphone", "Indian mobile", "India phone"]
  else if category = "international" then ["India international", "India foreign", "India global"]
  else if category = "automobile" then ["India car", "Indian automotive", "India vehicle"]
  else if category = "miscellaneous" then ["India news", "India current affairs", "India updates"]
  else ["India news"]

/-- The cache-hit test of CachedNewsService.get_cached_category_news
(cached_news_service.py line 719): Python
`if cached_articles and len(cached_articles) >= page_size`, where
`cached_articles` is the (possibly absent) cached list for the category
key — an empty list is falsy. -/
def categoryCacheHit (cached : Option (List Article)) (page_size : ℕ) : Bool :=
  match cached with
  | none => false
  | some l => ! l.isEmpty && decide (page_size ≤ l.length)

/-- CachedNewsService.get_cached_category_news (cached_news_service.py lines
710-829) with the upstream calls abstracted.  `cached` is the cache entry for
the category key at call time (already validated by the cache manager, `none`
on a missing/expired entry); `searchResults` lists, per category search
query, the article list that `NewsService.search_articles` returned for it;
`headlines` is the outcome of the `NewsService.get_top_headlines` fallback
call (`none` when it failed or returned nothing).  The result is the response
triple, the cache entry for the category key after the call (a successful
write replaces it; the disk-failure behaviour of the write itself is modelled
by `save_articles_to_cache`), and whether a fresh provider fetch was
attempted. -/
def get_cached_category_news (cached : Option (List Article)) (category : String)
    (page_size : ℕ) (searchResults : List (List Article))
    (headlines : Option (List Article)) :
    (Bool × List Article × Option String) × Option (List Article) × Bool :=
  if categoryCacheHit cached page_size then
    ((true, (cached.getD []).take page_size, none), cached, false)
  else
    let all_articles := (searchResults.map (fun r => r.filter validArticle)).flatten
    if all_articles ≠ [] then
      let final := (dedupe all_articles).take page_size
      ((true, final, none), some final, true)
    else
      match headlines with
      | some arts =>
        let valid := arts.filter validArticle
        if valid ≠ [] then ((true, valid.take page_size, none), some valid, true)
        else
          ((false, [], some ("Unable to fetch real news for category " ++ category
            ++ ". Please try again later.")), cached, true)
      | none =>
        ((false, [], some ("Unable to fetch real news for category " ++ category
          ++ ". Please try again later.")), cached, true)

/-- CachedNewsService.get_cached_category_news specialised to the run in which
every upstream HTTP request fails: NewsService._make_request reports failure,
so NewsService.search_articles returns `(True, search_fallback(query,
page_size), None)` (news_service.py lines 337-340) and
NewsService.get_top_headlines returns `(True, get_fallback_articles(page_size),
None)` (news_service.py lines 306-309).  `shuffles i` is the permutation used
by `random.shuffle` in the i-th fallback call of the run. -/
def get_cached_category_news_allFail (cached : Option (List Article))
    (category : String) (page_size : ℕ) (now : ℚ)
    (shuffles : ℕ → List Article → List Article) :
    (Bool × List Article × Option String) × Option (List Article) × Bool :=
  let queries := categorySearchQueries category
  get_cached_category_news cached category page_size
    (queries.enum.map (fun iq => search_fallback (shuffles iq.1) now iq.2 page_size))
    (some (get_fallback_articles (shuffles queries.length) now page_size none))

theorem dedupeAux_subset (l : List Article) (seen : List (List Char)) :
    ∀ a ∈ dedupeAux l seen, a ∈ l := by
  induction l generalizing seen with
  | nil => intro a h; simp [dedupeAux] at h
  | cons b rest ih =>
    intro a h
    rw [dedupeAux] at h
    split at h
    · rcases List.mem_cons.mp h with h | h
      · exact h ▸ List.mem_cons_self b rest
      · exact List.mem_cons_of_mem b (ih _ a h)
    · exact List.mem_cons_of_mem b (ih _ a h)

theorem dedupeAux_length_le (l : List Article) (seen : List (List Char)) :
    (dedupeAux l seen).length ≤ l.length := by
  induction l generalizing seen with
  | nil => simp [dedupeAux]
  | cons b rest ih =>
    rw [dedupeAux]
    split
    · simpa using Nat.succ_le_succ (ih _)
    · exact Nat.le_succ_of_le (ih _)

theorem dedupeAux_titles (l : List Article) (seen : List (List Char)) :
    ∀ a ∈ dedupeAux l seen, normTitle a ≠ [] ∧ normTitle a ∉ seen := by
  induction l generalizing seen with
  | nil => intro a h; simp [dedupeAux] at h
  | cons b rest ih =>
    intro a h
    rw [dedupeAux] at h
    split at h
    · rename_i hcond
      rcases List.mem_cons.mp h with h | h
      · exact h ▸ hcond
      · have := ih _ a h
        exact ⟨this.1, fun hm => this.2 (List.mem_cons_of_mem _ hm)⟩
    · exact ih _ a h

theorem dedupeAux_titles_nodup (l : List Article) (seen : List (List Char)) :
    (List.map normTitle (dedupeAux l seen)).Nodup := by
  induction l generalizing seen with
  | nil => simp [dedupeAux]
  | cons b rest ih =>
    rw [dedupeAux]
    split
    · rw [List.map_cons, List.nodup_cons]
      constructor
      · intro hm
        rcases List.mem_map.mp hm with ⟨a, ha, heq⟩
        have := (dedupeAux_titles rest (normTitle b :: seen) a ha).2
        exact this (heq ▸ List.mem_cons_self _ _)
      · exact ih _
    · exact ih _

theorem dedupeAux_eq_self (l : List Article) (seen : List (List Char))
    (hgood : ∀ a ∈ l, normTitle a ≠ [] ∧ normTitle a ∉ seen)
    (hnodup : (List.map normTitle l).Nodup) : dedupeAux l seen = l := by
  induction l generalizing seen with
  | nil => simp [dedupeAux]
  | cons b rest ih =>
    rw [dedupeAux]
    have hb := hgood b (List.mem_cons_self _ _)
    rw [if_pos hb]
    congr 1
    rw [List.map_cons, List.nodup_cons] at hnodup
    refine ih _ (fun a ha => ?_) hnodup.2
    have hgr := hgood a (List.mem_cons_of_mem _ ha)
    refine ⟨hgr.1, fun hm => ?_⟩
    rcases List.mem_cons.mp hm with hm | hm
    · exact hnodup.1 (hm ▸ List.mem_map_of_mem normTitle ha)
    · exact hgr.2 hm

theorem dedupeAux_ne_nil (l : List Article) (seen : List (List Char))
    (a : Article) (ha : a ∈ l) (ht : normTitle a ≠ []) (hs : normTitle a ∉ seen) :
    dedupeAux l seen ≠ [] := by
  induction l generalizing seen with
  | nil => cases ha
  | cons b rest ih =>
    rw [dedupeAux]
    split
    · simp
    · rename_i hcond
      rcases List.mem_cons.mp ha with h | h
      · exact absurd (h ▸ ⟨ht, hs⟩) hcond
      · exact ih _ h hs

theorem dedupeAux_eq_spec (l : List Article) (seen : List (List Char))
    (hgood : ∀ a ∈ l, normTitle a ≠ []) :
    dedupeAux l seen = dedupeSpecAux l seen := by
  induction l generalizing seen with
  | nil => simp [dedupeAux, dedupeSpecAux]
  | cons b rest ih =>
    rw [dedupeAux, dedupeSpecAux]
    have hb := hgood b (List.mem_cons_self _ _)
    by_cases hm : normTitle b ∈ seen
    · rw [if_neg (by simp [hm]), if_neg (by simp [hm])]
      exact ih _ (fun a ha => hgood a (List.mem_cons_of_mem _ ha))
    · rw [if_pos ⟨hb, hm⟩, if_pos hm]
      rw [ih _ (fun a ha => hgood a (List.mem_cons_of_mem _ ha))]

/-- An article whose title strips to the empty string. -/
def blankTitleArticle : Article :=
  { title := "   ", description := "some description", url := "https://example.org/blank",
    publishedAt := none }

/-- Claim C5, counterexample: the code's dedup does not keep the first
occurrence per normalized title for every article — an article whose trimmed
title is empty is dropped outright, where the spec-side dedup (first-seen
wins, keyed on the normalized title) would keep it. -/
theorem claim_C5_counterexample :
    dedupe [blankTitleArticle] = [] ∧
    dedupeSpec [blankTitleArticle] = [blankTitleArticle] := by
  constructor <;> decide

/-- Claim C5 (amended): the dedup step keys articles by their trimmed,
lower-cased title, drops every article whose normalized title is empty, and
keeps the first occurrence per non-empty normalized title; consequently
dedupe is idempotent, never lengthens the list, returns only articles of the
input, emits each normalized title at most once, and agrees with the
keep-first-occurrence rule on every list all of whose normalized titles are
non-empty. -/
theorem claim_C5_dedupe_idempotent (X : List Article) :
    dedupe (dedupe X) = dedupe X ∧
    (dedupe X).length ≤ X.length ∧
    (List.map normTitle (dedupe X)).Nodup ∧
    (∀ a ∈ dedupe X, a ∈ X ∧ normTitle a ≠ []) ∧
    ((∀ a ∈ X, normTitle a ≠ []) → dedupe X = dedupeSpec X) := by
  refine ⟨?_, dedupeAux_length_le X [], dedupeAux_titles_nodup X [],
    fun a ha => ⟨dedupeAux_subset X [] a ha, (dedupeAux_titles X [] a ha).1⟩,
    fun h => dedupeAux_eq_spec X [] h⟩
  exact dedupeAux_eq_self (dedupe X) []
    (fun a ha => ⟨(dedupeAux_titles X [] a ha).1, List.not_mem_nil _⟩)
    (dedupeAux_titles_nodup X [])

/-- Witness for claim C5 at a concrete list with a repeated title. -/
theorem claim_C5_witness :
    dedupe (dedupe [blankTitleArticle, blankTitleArticle]) =
      dedupe [blankTitleArticle, blankTitleArticle] ∧
    (dedupe [blankTitleArticle, blankTitleArticle]).length ≤ 2 := by
  have h := claim_C5_dedupe_idempotent [blankTitleArticle, blankTitleArticle]
  exact ⟨h.1, h.2.1⟩

/-- A simple well-formed article used to instantiate theorems. -/
def sampleArticle : Article :=
  { title := "Sample cached article title", description := "a description",
    url := "https://example.org/sample", publishedAt := none }

/-- Claim C3: with cache duration D, a cache entry written at time T is a hit
(the stored list is returned) at any query time strictly before T+D, and a
miss (`None`) at or after T+D or when no entry exists for the key — the
validity inequality `now - timestamp < duration` is strict. -/
theorem claim_C3_cache_expiry (store : String → CacheFile) (key : String)
    (D T now : ℚ) (arts : List Article)
    (hentry : store key = .stored ⟨T, arts⟩) :
    (now < T + D → get_cached_articles D now (store key) = some arts) ∧
    (T + D ≤ now → get_cached_articles D now (store key) = none) ∧
    (∀ store2 : String → CacheFile, store2 key = .absent →
      get_cached_articles D now (store2 key) = none) := by
  rw [hentry]
  refine ⟨fun hlt => ?_, fun hge => ?_, fun store2 h2 => by rw [h2]; rfl⟩
  · rw [get_cached_articles, if_pos]
    simp only [is_cache_valid, decide_eq_true_eq]
    linarith
  · rw [get_cached_articles, if_neg]
    simp only [is_cache_valid, decide_eq_true_eq, not_lt]
    linarith

/-- Witness for claim C3: an entry written at T=0 with D=600 is a hit at
now=599 and a miss at now=600. -/
theorem claim_C3_witness :
    get_cached_articles 600 599 ((fun _ => CacheFile.stored ⟨0, [sampleArticle]⟩) "k")
      = some [sampleArticle] ∧
    get_cached_articles 600 600 ((fun _ => CacheFile.stored ⟨0, [sampleArticle]⟩) "k")
      = none := by
  have h1 := claim_C3_cache_expiry (fun _ => CacheFile.stored ⟨0, [sampleArticle]⟩) "k"
    600 0 599 [sampleArticle] rfl
  have h2 := claim_C3_cache_expiry (fun _ => CacheFile.stored ⟨0, [sampleArticle]⟩) "k"
    600 0 600 [sampleArticle] rfl
  exact ⟨h1.1 (by norm_num), h2.2.1 (by norm_num)⟩

/-- Claim C6, counterexample: a put that fails after the file was opened (the
'w' open already truncated it) does NOT leave the prior entry unchanged — the
prior entry becomes unreadable, so a get that would have hit before the
failed put misses after it. -/
theorem claim_C6_counterexample :
    (save_articles_to_cache (.stored ⟨0, [sampleArticle]⟩) 5 [] .writeFail).1 = false ∧
    (save_articles_to_cache (.stored ⟨0, [sampleArticle]⟩) 5 [] .writeFail).2
      ≠ .stored ⟨0, [sampleArticle]⟩ ∧
    get_cached_articles 600 1 (.stored ⟨0, [sampleArticle]⟩) = some [sampleArticle] ∧
    get_cached_articles 600 1
      (save_articles_to_cache (.stored ⟨0, [sampleArticle]⟩) 5 [] .writeFail).2 = none := by
  refine ⟨rfl, fun h => ?_, ?_, rfl⟩
  · exact CacheFile.noConfusion h
  · rw [get_cached_articles, if_pos]
    rw [is_cache_valid]
    norm_num

/-- Claim C6 (amended): put fully replaces the entry and reports success on a
successful write; on failure it reports failure, and the prior entry is
unchanged only when opening the file itself failed — when the write fails
after the open, the prior entry is destroyed (the file was truncated) and
every subsequent get on that key misses. -/
theorem claim_C6_put_failure (prev : CacheFile) (now : ℚ) (arts : List Article) :
    save_articles_to_cache prev now arts .ok = (true, .stored ⟨now, arts⟩) ∧
    save_articles_to_cache prev now arts .openFail = (false, prev) ∧
    (save_articles_to_cache prev now arts .writeFail).1 = false ∧
    (∀ D t : ℚ,
      get_cached_articles D t (save_articles_to_cache prev now arts .writeFail).2
        = none) :=
  ⟨rfl, rfl, rfl, fun _ _ => rfl⟩

/-- Claim C7: `_can_use_gnews` first resets the counter to 0 the first time
the stored reset date differs from the current date, then returns
`requests_today < limit`; with the counter at (or beyond) the limit on day N
it returns false on day N leaving the state unchanged (so every further call
on day N also returns false), returns true on day N+1 with the counter reset
to 0 before the check, and `_increment_gnews_usage` increments the counter
unconditionally. -/
theorem claim_C7_quota_reset (k N : ℕ) (hk : gnews_daily_limit ≤ k) :
    can_use_gnews ⟨k, some N⟩ N = (false, ⟨k, some N⟩) ∧
    can_use_gnews ⟨k, some N⟩ (N + 1) = (true, ⟨0, some (N + 1)⟩) ∧
    (∀ (s : GnewsQuota) (today : ℕ), s.last_reset_date ≠ some today →
      can_use_gnews s today = (true, ⟨0, some today⟩)) ∧
    (∀ s : GnewsQuota, increment_gnews_usage s =
      ⟨s.gnews_requests_today + 1, s.last_reset_date⟩) := by
  refine ⟨?_, ?_, fun s today hne => ?_, fun s => rfl⟩
  · rw [can_use_gnews]
    simp only [ne_eq, not_true_eq_false, if_neg, ite_false, not_not, reduceIte]
    rw [decide_eq_false (Nat.not_lt.mpr hk)]
  · rw [can_use_gnews]
    rw [if_pos (by simp)]
    rfl
  · rw [can_use_gnews, if_pos hne]
    rfl

/-- Witness for claim C7 at the concrete limit boundary. -/
theorem claim_C7_witness :
    can_use_gnews ⟨95, some 0⟩ 0 = (false, ⟨95, some 0⟩) ∧
    can_use_gnews ⟨95, some 0⟩ 1 = (true, ⟨0, some 1⟩) := by
  have h := claim_C7_quota_reset 95 0 (by decide)
  exact ⟨h.1, h.2.1⟩

/-- Claim C9: after every learn_from_article call the persisted read history
has at most 100 entries (exactly `min (|h|+1) 100`), is a suffix of the full
newest-last history (so ordering is preserved and eviction happens at the
oldest end), ends with the entry just learned, and the evicted part is
exactly the oldest overflow prefix. -/
theorem claim_C9_read_history_bound {α : Type} (h : List α) (e : α) :
    (persisted_read_history (learn_from_article h e)).length = min (h.length + 1) 100 ∧
    (persisted_read_history (learn_from_article h e)).length ≤ 100 ∧
    (persisted_read_history (learn_from_article h e)).IsSuffix (learn_from_article h e) ∧
    (∃ rest, persisted_read_history (learn_from_article h e) = rest ++ [e]) ∧
    (learn_from_article h e).take (h.length + 1 - 100) ++
      persisted_read_history (learn_from_article h e) = learn_from_article h e := by
  have hlen : (learn_from_article h e).length = h.length + 1 := by
    simp [learn_from_article]
  refine ⟨?_, ?_, ?_, ?_, ?_⟩
  · rw [persisted_read_history, List.length_drop, hlen]
    omega
  · rw [persisted_read_history, List.length_drop, hlen]
    omega
  · exact List.drop_suffix _ _
  · refine ⟨h.drop (h.length + 1 - 100), ?_⟩
    rw [persisted_read_history, hlen, learn_from_article,
      List.drop_append_eq_append_drop]
    congr 1
    have : h.length + 1 - 100 - h.length = 0 := by omega
    rw [this, List.drop_zero]
  · rw [persisted_read_history, hlen]
    exact List.take_append_drop _ _

/-- The article with one more clickbait pattern matching its text and all
other fields and statistics unchanged. -/
def bumpClickbait (a : ArticleF) : ArticleF :=
  { a with clickbaitMatches := a.clickbaitMatches + 1 }

/-- The article with its source on the curated authority list and all other
fields and statistics unchanged. -/
def withAuthority (a : ArticleF) : ArticleF :=
  { a with authoritySource := true }

theorem quality_pre_score_bump (a : ArticleF) :
    quality_pre_score (bumpClickbait a) = quality_pre_score a - 2 := by
  obtain ⟨⟨t, d, u, p⟩, cb, q, au, en, ind, te, cr, sp, cat⟩ := a
  simp only [quality_pre_score, bumpClickbait]
  push_cast
  ring

theorem quality_pre_score_authority (a : ArticleF) (h : a.authoritySource = false) :
    quality_pre_score (withAuthority a) = quality_pre_score a + 2 := by
  obtain ⟨⟨t, d, u, p⟩, cb, q, au, en, ind, te, cr, sp, cat⟩ := a
  have hau : au = false := h
  subst hau
  simp only [quality_pre_score, withAuthority]
  simp
  ring

theorem category_bonus_empty : category_bonus "" = 0 := by
  rw [category_bonus, if_neg (by decide), if_neg (by decide)]

/-- An article whose text already matches five of the six clickbait patterns
and contains one entertainment keyword, nothing else. -/
def clickbaitHeavyArticle : ArticleF :=
  { title := "Shocking unbelievable stunning!! you will never believe this viral must see story top 5 click here",
    description := "", url := "https://example.org/cb", publishedAt := none,
    clickbaitMatches := 5, qualityMatches := 0, authoritySource := false,
    entertainmentMatches := 1, indianMatches := 0, techMatches := 0,
    cricketMatches := 0, sportsMatches := 0, category := "" }

theorem pre_score_clickbaitHeavy : quality_pre_score clickbaitHeavyArticle = -5 := by
  norm_num [quality_pre_score, clickbaitHeavyArticle, category_bonus_empty]

/-- Claim C8, counterexample: because of the final clamp to 0, one more
clickbait match does NOT strictly lower the (clamped) quality score of an
already deeply negative article, and an authority-source match does not
strictly raise it. -/
theorem claim_C8_counterexample :
    calculate_quality_score clickbaitHeavyArticle = 0 ∧
    calculate_quality_score (bumpClickbait clickbaitHeavyArticle) = 0 ∧
    ¬ (calculate_quality_score (bumpClickbait clickbaitHeavyArticle)
        < calculate_quality_score clickbaitHeavyArticle) ∧
    calculate_quality_score (withAuthority clickbaitHeavyArticle) = 0 ∧
    ¬ (calculate_quality_score clickbaitHeavyArticle
        < calculate_quality_score (withAuthority clickbaitHeavyArticle)) := by
  have h1 : calculate_quality_score clickbaitHeavyArticle = 0 := by
    rw [calculate_quality_score, pre_score_clickbaitHeavy]
    exact max_eq_left (by norm_num)
  have h2 : calculate_quality_score (bumpClickbait clickbaitHeavyArticle) = 0 := by
    rw [calculate_quality_score, quality_pre_score_bump, pre_score_clickbaitHeavy]
    exact max_eq_left (by norm_num)
  have h3 : calculate_quality_score (withAuthority clickbaitHeavyArticle) = 0 := by
    rw [calculate_quality_score, quality_pre_score_authority _ rfl,
      pre_score_clickbaitHeavy]
    exact max_eq_left (by norm_num)
  refine ⟨h1, h2, ?_, h3, ?_⟩
  · rw [h1, h2]
    exact lt_irrefl 0
  · rw [h1, h3]
    exact lt_irrefl 0

/-- Claim C8 (amended): the pre-clamp score strictly decreases by 2.0 per
additional clickbait match and strictly increases by 2.0 with an authority
source; the final score, clamped to be at least 0, therefore decreases
(resp. increases) weakly in general, and strictly whenever the larger of the
two clamped scores is positive. -/
theorem claim_C8_score_monotonicity (a : ArticleF) :
    0 ≤ calculate_quality_score a ∧
    calculate_quality_score (bumpClickbait a) ≤ calculate_quality_score a ∧
    (0 < calculate_quality_score a →
      calculate_quality_score (bumpClickbait a) < calculate_quality_score a) ∧
    (a.authoritySource = false →
      calculate_quality_score a ≤ calculate_quality_score (withAuthority a) ∧
      (0 < calculate_quality_score (withAuthority a) →
        calculate_quality_score a < calculate_quality_score (withAuthority a))) := by
  refine ⟨le_max_left _ _, ?_, ?_, fun hau => ⟨?_, ?_⟩⟩
  · simp only [calculate_quality_score, quality_pre_score_bump]
    exact max_le_max (le_refl 0) (by linarith)
  · intro hpos
    simp only [calculate_quality_score, quality_pre_score_bump] at hpos ⊢
    have hp : 0 < quality_pre_score a := by
      rcases lt_max_iff.mp hpos with h | h
      · exact absurd h (lt_irrefl 0)
      · exact h
    rw [max_eq_right hp.le]
    exact max_lt_iff.mpr ⟨hp, by linarith⟩
  · simp only [calculate_quality_score, quality_pre_score_authority a hau]
    exact max_le_max (le_refl 0) (by linarith)
  · intro hpos
    simp only [calculate_quality_score, quality_pre_score_authority a hau] at hpos ⊢
    have hp : 0 < quality_pre_score a + 2 := by
      rcases lt_max_iff.mp hpos with h | h
      · exact absurd h (lt_irrefl 0)
      · exact h
    rw [max_eq_right hp.le]
    exact max_lt_iff.mpr ⟨hp, by linarith⟩

/-- A neutral article: no pattern or keyword matches at all. -/
def neutralArticle : ArticleF :=
  { title := "Morning council session resumes", description := "The council met again.",
    url := "https://example.org/n", publishedAt := none,
    clickbaitMatches := 0, qualityMatches := 0, authoritySource := false,
    entertainmentMatches := 0, indianMatches := 0, techMatches := 0,
    cricketMatches := 0, sportsMatches := 0, category := "" }

theorem pre_score_neutral : quality_pre_score neutralArticle = 5 := by
  norm_num [quality_pre_score, neutralArticle, category_bonus_empty]

/-- Witness for claim C8 on a neutral article with positive score. -/
theorem claim_C8_witness :
    calculate_quality_score (bumpClickbait neutralArticle)
      < calculate_quality_score neutralArticle ∧
    calculate_quality_score neutralArticle
      < calculate_quality_score (withAuthority neutralArticle) := by
  have h := claim_C8_score_monotonicity neutralArticle
  refine ⟨h.2.2.1 ?_, (h.2.2.2 rfl).2 ?_⟩
  · rw [calculate_quality_score, pre_score_neutral]
    norm_num
  · rw [calculate_quality_score, quality_pre_score_authority _ rfl, pre_score_neutral]
    norm_num

/-- Membership is preserved by _filter_and_prioritize_articles for every
article passing its gates: non-empty title and description and a quality
score of at least 3.0. -/
theorem mem_filter_and_prioritize (now : ℚ) (a : ArticleF) (l : List ArticleF)
    (hmem : a ∈ l) (ht : a.title ≠ "") (hd : a.description ≠ "")
    (hq : 3 ≤ calculate_quality_score a) :
    a ∈ filter_and_prioritize_articles now l := by
  rw [filter_and_prioritize_articles]
  have hmem2 : (calculate_quality_score a + recency_bonus now a, a) ∈
      l.filterMap (fun a =>
        if a.title = "" ∨ a.description = "" then none
        else
          let q := calculate_quality_score a
          if 3 ≤ q then some (q + recency_bonus now a, a) else none) := by
    refine List.mem_filterMap.mpr ⟨a, hmem, ?_⟩
    rw [if_neg (by simp [ht, hd])]
    simp only
    rw [if_pos hq]
  have hperm := List.mergeSort_perm
    (l.filterMap (fun a =>
      if a.title = "" ∨ a.description = "" then none
      else
        let q := calculate_quality_score a
        if 3 ≤ q then some (q + recency_bonus now a, a) else none))
    (fun x y => decide (y.1 ≤ x.1))
  exact List.mem_map.mpr ⟨_, hperm.mem_iff.mpr hmem2, rfl⟩

/-- An article whose publishedAt field is missing, with two quality-keyword
matches, so that its quality score 6.0 passes the inclusion gate. -/
def missingTimeArticle : ArticleF :=
  { title := "Infrastructure projects review meeting",
    description := "The ministry reviews infrastructure plans for the year.",
    url := "https://example.org/infra", publishedAt := none,
    clickbaitMatches := 0, qualityMatches := 2, authoritySource := false,
    entertainmentMatches := 0, indianMatches := 0, techMatches := 0,
    cricketMatches := 0, sportsMatches := 0, category := "" }

/-- The same article with a present but unparsable publishedAt value. -/
def unparsableTimeArticle : ArticleF :=
  { missingTimeArticle with publishedAt := some none }

theorem score_missingTime : calculate_quality_score missingTimeArticle = 6 := by
  have hpre : quality_pre_score missingTimeArticle = 6 := by
    norm_num [quality_pre_score, missingTimeArticle, category_bonus_empty]
  rw [calculate_quality_score, hpre]
  exact max_eq_right (by norm_num)

/-- Claim C2, counterexample: an article with a MISSING publish time is not
treated as recent — `_is_recent_article` returns False for it at both
thresholds and its recency bonus is 0, where an actually recent article gets
the 1.0 bonus; the article is still included (the inclusion part of the claim
holds). -/
theorem claim_C2_counterexample :
    is_recent_article 0 missingTimeArticle 24 = false ∧
    is_recent_article 0 missingTimeArticle 48 = false ∧
    recency_bonus 0 missingTimeArticle = 0 ∧
    recency_bonus 0 { missingTimeArticle with publishedAt := some (some 0) } = 1 ∧
    missingTimeArticle ∈ filter_and_prioritize_articles 0 [missingTimeArticle] := by
  refine ⟨rfl, rfl, rfl, ?_, ?_⟩
  · rw [recency_bonus, if_pos]
    rw [is_recent_article]
    norm_num
  · refine mem_filter_and_prioritize 0 _ _ (List.mem_singleton_self _)
      (by decide) (by decide) ?_
    rw [score_missingTime]
    norm_num

/-- Claim C2 (amended): an article whose publish time is present but
unparsable is treated as recent (it gets the full 1.0 recency bonus), while
an article whose publish time is missing gets no recency bonus; in neither
case is the article excluded — every article of the input that passes the
title/description and quality-score gates appears in the output, regardless
of its publish time. -/
theorem claim_C2_recency_fail_open (now : ℚ) (a : ArticleF) (l : List ArticleF) :
    (a.publishedAt = some none → recency_bonus now a = 1) ∧
    (a.publishedAt = none → recency_bonus now a = 0) ∧
    (a ∈ l → a.title ≠ "" → a.description ≠ "" → 3 ≤ calculate_quality_score a →
      a ∈ filter_and_prioritize_articles now l) := by
  refine ⟨fun hp => ?_, fun hp => ?_, fun hmem ht hd hq =>
    mem_filter_and_prioritize now a l hmem ht hd hq⟩
  · rw [recency_bonus, if_pos]
    rw [is_recent_article, hp]
  · rw [recency_bonus, if_neg, if_neg]
    · rw [is_recent_article, hp]
      simp
    · rw [is_recent_article, hp]
      simp

/-- Witness for claim C2 at concrete articles. -/
theorem claim_C2_witness :
    recency_bonus 0 unparsableTimeArticle = 1 ∧
    recency_bonus 0 missingTimeArticle = 0 ∧
    missingTimeArticle ∈ filter_and_prioritize_articles 0 [missingTimeArticle] := by
  have h1 := claim_C2_recency_fail_open 0 unparsableTimeArticle [unparsableTimeArticle]
  have h2 := claim_C2_recency_fail_open 0 missingTimeArticle [missingTimeArticle]
  refine ⟨h1.1 rfl, h2.2.1 rfl,
    h2.2.2 (List.mem_singleton_self _) (by decide) (by decide) ?_⟩
  rw [score_missingTime]
  norm_num

theorem gnewsCategoryFilter_eq_take (master : List Article) (category : String)
    (page_size : ℕ) :
    gnewsCategoryFilter master category page_size =
      ((master.filter (fun a => decide (0 < hitCount (gnewsCategoryKeywords category) a))).mergeSort
          (fun a b => decide (hitCount (gnewsCategoryKeywords category) b
            ≤ hitCount (gnewsCategoryKeywords category) a)) ++
        master.filter (fun a => ! decide (0 < hitCount (gnewsCategoryKeywords category) a))).take
        page_size := by
  rw [gnewsCategoryFilter]
  set kw := gnewsCategoryKeywords category
  set sorted := (master.filter (fun a => decide (0 < hitCount kw a))).mergeSort
    (fun a b => decide (hitCount kw b ≤ hitCount kw a)) with hsorted
  set general := master.filter (fun a => ! decide (0 < hitCount kw a)) with hgeneral
  by_cases hlt : sorted.length < page_size
  · rw [if_pos hlt]
    rw [List.take_append_eq_append_take, List.take_append_eq_append_take]
    rw [List.take_of_length_le (le_of_lt hlt), List.take_take]
    rw [min_self]
  · rw [if_neg hlt]
    rw [List.take_append_eq_append_take]
    have : page_size - sorted.length = 0 := by omega
    rw [this, List.take_zero, List.append_nil]

/-- Claim C4: for every input batch, category and limit, the category filter
of _get_gnews_category_articles returns exactly `min limit |batch|` articles;
the first `min limit (number of matches)` of them are exactly the
keyword-matching articles ordered by hit count descending, the rest are
non-matching backfill, and every returned article comes from the batch. -/
theorem claim_C4_classifier_backfill (master : List Article) (category : String)
    (page_size : ℕ) :
    (gnewsCategoryFilter master category page_size).length = min page_size master.length ∧
    (∀ a ∈ (gnewsCategoryFilter master category page_size).take
        ((master.filter (fun a =>
          decide (0 < hitCount (gnewsCategoryKeywords category) a))).length),
      0 < hitCount (gnewsCategoryKeywords category) a) ∧
    List.Pairwise
      (fun a b => hitCount (gnewsCategoryKeywords category) b
        ≤ hitCount (gnewsCategoryKeywords category) a)
      ((gnewsCategoryFilter master category page_size).take
        ((master.filter (fun a =>
          decide (0 < hitCount (gnewsCategoryKeywords category) a))).length)) ∧
    (∀ a ∈ (gnewsCategoryFilter master category page_size).drop
        ((master.filter (fun a =>
          decide (0 < hitCount (gnewsCategoryKeywords category) a))).length),
      hitCount (gnewsCategoryKeywords category) a = 0) ∧
    (∀ a ∈ gnewsCategoryFilter master category page_size, a ∈ master) := by
  set kw := gnewsCategoryKeywords category with hkw
  set matched := master.filter (fun a => decide (0 < hitCount kw a)) with hmatched
  set general := master.filter (fun a => ! decide (0 < hitCount kw a)) with hgeneral
  set le := fun a b => decide (hitCount kw b ≤ hitCount kw a) with hle
  set sorted := matched.mergeSort le with hsortdef
  have hperm : sorted.Perm matched := List.mergeSort_perm matched le
  have hslen : sorted.length = matched.length := hperm.length_eq
  have hr : gnewsCategoryFilter master category page_size =
      (sorted ++ general).take page_size :=
    gnewsCategoryFilter_eq_take master category page_size
  have hpartition : matched.length + general.length = master.length := by
    rw [hmatched, hgeneral]
    exact (List.length_eq_length_filter_add
      (fun a => decide (0 < hitCount kw a))).symm
  refine ⟨?_, ?_, ?_, ?_, ?_⟩
  · rw [hr, List.length_take, List.length_append, hslen, hpartition]
  · intro a ha
    rw [hr, List.take_take] at ha
    have hmin : min matched.length page_size ≤ sorted.length := by
      rw [hslen]; exact min_le_left _ _
    rw [List.take_append_of_le_length hmin] at ha
    have : a ∈ sorted := List.take_subset _ _ ha
    have : a ∈ matched := hperm.subset this
    have := List.of_mem_filter this
    exact of_decide_eq_true this
  · have hsorted : List.Pairwise (fun a b => le a b = true) sorted := by
      refine List.sorted_mergeSort ?_ ?_ matched
      · intro a b c hab hbc
        rw [hle] at hab hbc ⊢
        rw [decide_eq_true_eq] at hab hbc ⊢
        exact le_trans hbc hab
      · intro a b
        rcases le_total (hitCount kw b) (hitCount kw a) with h | h <;>
          simp [hle, h]
    rw [hr, List.take_take]
    have hmin : min matched.length page_size ≤ sorted.length := by
      rw [hslen]; exact min_le_left _ _
    rw [List.take_append_of_le_length hmin]
    refine List.Pairwise.sublist (List.take_sublist _ _) ?_
    refine hsorted.imp ?_
    intro a b h
    rw [hle] at h
    exact of_decide_eq_true h
  · intro a ha
    rw [hr, List.drop_take, ← hslen, List.drop_left] at ha
    have : a ∈ general := List.take_subset _ _ ha
    have := List.of_mem_filter this
    rw [Bool.not_eq_eq_eq_not, Bool.not_true, decide_eq_false_iff_not] at this
    omega
  · intro a ha
    rw [hr] at ha
    have := List.take_subset _ _ ha
    rcases List.mem_append.mp this with h | h
    · exact List.mem_of_mem_filter (hperm.subset h)
    · exact List.mem_of_mem_filter h

/-- An article matching several of the sports keywords. -/
def sportsArticle : Article :=
  { title := "India cricket team wins the match", description := "a great win for the team",
    url := "https://example.org/c", publishedAt := none }

/-- An article matching none of the sports keywords. -/
def gardeningArticle : Article :=
  { title := "Gardening tips for beginners", description := "flowers and soil",
    url := "https://example.org/g", publishedAt := none }

/-- Witness for claim C4 at a concrete two-article batch with limit 5. -/
theorem claim_C4_witness :
    (gnewsCategoryFilter [sportsArticle, gardeningArticle] "sports" 5).length = min 5 2 ∧
    sportsArticle ∈ [sportsArticle, gardeningArticle] := by
  have h := claim_C4_classifier_backfill [sportsArticle, gardeningArticle] "sports" 5
  exact ⟨h.1, List.mem_cons_self _ _⟩

theorem get_cached_category_news_fetch_on_miss (cached : Option (List Article))
    (category : String) (page_size : ℕ) (searchResults : List (List Article))
    (headlines : Option (List Article))
    (h : categoryCacheHit cached page_size = false) :
    (get_cached_category_news cached category page_size searchResults headlines).2.2
      = true := by
  rw [get_cached_category_news.eq_def, if_neg (by simp [h])]
  simp only
  split
  · rfl
  · split
    · split
      · rfl
      · rfl
    · rfl

/-- Claim C10: get_cached_category_news serves from the per-category cache
exactly when the valid cached entry is non-empty and holds at least
`page_size` articles — in that case it returns the entry's prefix, writes
nothing and fetches nothing; a valid entry with fewer than `page_size`
articles is treated as a miss: a fresh provider fetch is attempted and, when
the search queries produce any valid article, its deduplicated, truncated
result replaces the cached entry. -/
theorem claim_C10_cache_size_gate (cached : Option (List Article))
    (category : String) (page_size : ℕ) (searchResults : List (List Article))
    (headlines : Option (List Article)) :
    ((get_cached_category_news cached category page_size searchResults headlines).2.2
        = false ↔ categoryCacheHit cached page_size = true) ∧
    (∀ l, cached = some l → l ≠ [] → page_size ≤ l.length →
      get_cached_category_news cached category page_size searchResults headlines
        = ((true, l.take page_size, none), cached, false)) ∧
    (∀ l, cached = some l → l.length < page_size →
      (get_cached_category_news cached category page_size searchResults headlines).2.2
        = true ∧
      ((searchResults.map (fun r => r.filter validArticle)).flatten ≠ [] →
        get_cached_category_news cached category page_size searchResults headlines
          = ((true,
              (dedupe ((searchResults.map (fun r => r.filter validArticle)).flatten)).take
                page_size, none),
             some ((dedupe ((searchResults.map
               (fun r => r.filter validArticle)).flatten)).take page_size),
             true))) := by
  refine ⟨?_, fun l hl hne hlen => ?_, fun l hl hlen => ?_⟩
  · constructor
    · intro hfalse
      by_contra hmiss
      have := get_cached_category_news_fetch_on_miss cached category page_size
        searchResults headlines (Bool.eq_false_iff.mpr hmiss)
      rw [hfalse] at this
      exact Bool.noConfusion this
    · intro hhit
      rw [get_cached_category_news.eq_def, if_pos hhit]
  · have hhit : categoryCacheHit cached page_size = true := by
      rw [hl, categoryCacheHit]
      simp [hne, hlen]
    rw [get_cached_category_news.eq_def, if_pos hhit, hl]
    rfl
  · have hmiss : categoryCacheHit cached page_size = false := by
      rw [hl, categoryCacheHit]
      simp [Nat.not_le.mpr hlen]
    refine ⟨get_cached_category_news_fetch_on_miss cached category page_size
      searchResults headlines hmiss, fun hall => ?_⟩
    rw [get_cached_category_news.eq_def, if_neg (by simp [hmiss])]
    simp only
    rw [if_pos hall]

/-- Witness for claim C10: a one-article valid entry misses a two-article
request (fetch attempted), while a two-article entry serves a one-article
request from cache unchanged. -/
theorem claim_C10_witness :
    (get_cached_category_news (some [sampleArticle]) "sports" 2 [[sportsArticle]]
      none).2.2 = true ∧
    get_cached_category_news (some [sportsArticle, sampleArticle]) "sports" 1 [] none
      = ((true, [sportsArticle], none), some [sportsArticle, sampleArticle], false) := by
  have h1 := claim_C10_cache_size_gate (some [sampleArticle]) "sports" 2
    [[sportsArticle]] none
  have h2 := claim_C10_cache_size_gate (some [sportsArticle, sampleArticle]) "sports" 1
    [] none
  refine ⟨(h1.2.2 [sampleArticle] rfl (by norm_num)).1, ?_⟩
  exact h2.2.1 [sportsArticle, sampleArticle] rfl (by simp) (by norm_num)

theorem fallback_all_valid (now : ℚ) : ∀ a ∈ fallbackArticles now, validArticle a = true := by
  intro a ha
  simp only [fallbackArticles, List.mem_cons, List.not_mem_nil, or_false] at ha
  rcases ha with rfl | rfl | rfl | rfl | rfl | rfl | rfl | rfl | rfl | rfl <;> rfl

theorem fallback_titles_ne_nil (now : ℚ) :
    ∀ a ∈ fallbackArticles now, normTitle a ≠ [] := by
  intro a ha
  simp only [fallbackArticles, List.mem_cons, List.not_mem_nil, or_false] at ha
  rcases ha with rfl | rfl | rfl | rfl | rfl | rfl | rfl | rfl | rfl | rfl <;>
    exact fun h => List.noConfusion h

theorem fallback_ne_nil (now : ℚ) : fallbackArticles now ≠ [] := by
  simp [fallbackArticles]

theorem take_ne_nil_of_pos {α : Type} (l : List α) (n : ℕ) (hn : 1 ≤ n) (hl : l ≠ []) :
    l.take n ≠ [] := by
  intro h
  have hlen := congrArg List.length h
  rw [List.length_take, List.length_nil] at hlen
  have hl0 : l.length ≠ 0 := fun h0 => hl (List.length_eq_zero.mp h0)
  omega

theorem search_fallback_subset (shuffle : List Article → List Article)
    (hs : ∀ l, (shuffle l).Perm l) (now : ℚ) (q : String) (n : ℕ) :
    ∀ a ∈ search_fallback shuffle now q n, a ∈ fallbackArticles now := by
  intro a ha
  rw [search_fallback, get_fallback_articles] at ha
  have h1 := List.take_subset _ _ ha
  have h2 := (hs _).subset h1
  exact List.mem_of_mem_filter h2

theorem get_fallback_subset (shuffle : List Article → List Article)
    (hs : ∀ l, (shuffle l).Perm l) (now : ℚ) (n : ℕ) :
    ∀ a ∈ get_fallback_articles shuffle now n none, a ∈ fallbackArticles now := by
  intro a ha
  rw [get_fallback_articles] at ha
  have h1 := List.take_subset _ _ ha
  exact (hs _).subset h1

/-- Claim C1: when the category request reaches the fetch stage (cache miss)
and every upstream HTTP request fails, get_cached_category_news still returns
success with a non-empty article list, every element of which comes from the
static fallback set — graceful degradation instead of surfacing the upstream
failure. -/
theorem claim_C1_graceful_degradation (cached : Option (List Article))
    (category : String) (page_size : ℕ) (now : ℚ)
    (shuffles : ℕ → List Article → List Article)
    (hmiss : categoryCacheHit cached page_size = false)
    (hps : 1 ≤ page_size)
    (hshuffle : ∀ i l, (shuffles i l).Perm l) :
    (get_cached_category_news_allFail cached category page_size now shuffles).1.1
      = true ∧
    (get_cached_category_news_allFail cached category page_size now shuffles).1.2.1
      ≠ [] ∧
    (∀ a ∈ (get_cached_category_news_allFail cached category page_size now
      shuffles).1.2.1, a ∈ fallbackArticles now) := by
  rw [get_cached_category_news_allFail]
  rw [get_cached_category_news.eq_def, if_neg (by simp [hmiss])]
  simp only
  set queries := categorySearchQueries category with hqueries
  set sr := queries.enum.map
    (fun iq => search_fallback (shuffles iq.1) now iq.2 page_size) with hsr
  set allA := (sr.map (fun r => r.filter validArticle)).flatten with hallA
  have hall_sub : ∀ a ∈ allA, a ∈ fallbackArticles now := by
    intro a ha
    rcases List.mem_flatten.mp ha with ⟨l, hl, hal⟩
    rcases List.mem_map.mp hl with ⟨r, hr, rfl⟩
    rcases List.mem_map.mp hr with ⟨iq, hiq, rfl⟩
    exact search_fallback_subset _ (hshuffle iq.1) now iq.2 page_size a
      (List.mem_of_mem_filter hal)
  by_cases hall : allA = []
  · rw [if_neg (by simp [hall])]
    set arts := get_fallback_articles (shuffles queries.length) now page_size none
      with harts
    have harts_sub : ∀ a ∈ arts, a ∈ fallbackArticles now :=
      get_fallback_subset _ (hshuffle queries.length) now page_size
    have hfilter : arts.filter validArticle = arts :=
      List.filter_eq_self.mpr (fun a ha => fallback_all_valid now a (harts_sub a ha))
    have harts_ne : arts ≠ [] := by
      rw [harts, get_fallback_articles]
      refine take_ne_nil_of_pos _ _ hps ?_
      intro hnil
      have := (hshuffle queries.length (fallbackArticles now)).length_eq
      rw [hnil, List.length_nil] at this
      exact fallback_ne_nil now (List.length_eq_zero.mp this.symm)
    rw [hfilter, if_pos harts_ne]
    refine ⟨rfl, take_ne_nil_of_pos _ _ hps harts_ne, fun a ha => ?_⟩
    exact harts_sub a (List.take_subset _ _ ha)
  · rw [if_pos hall]
    have hded_ne : dedupe allA ≠ [] := by
      rcases List.exists_mem_of_ne_nil allA hall with ⟨a, ha⟩
      exact dedupeAux_ne_nil allA [] a ha
        (fallback_titles_ne_nil now a (hall_sub a ha)) (List.not_mem_nil _)
    refine ⟨rfl, take_ne_nil_of_pos _ _ hps hded_ne, fun a ha => ?_⟩
    have h1 := List.take_subset _ _ ha
    exact hall_sub a (dedupeAux_subset allA [] a h1)

/-- Witness for claim C1: a sports request with an empty cache and every
provider failing still succeeds with a non-empty result. -/
theorem claim_C1_witness :
    (get_cached_category_news_allFail none "sports" 1 0 (fun _ l => l)).1.1 = true ∧
    (get_cached_category_news_allFail none "sports" 1 0 (fun _ l => l)).1.2.1 ≠ [] := by
  have h := claim_C1_graceful_degradation none "sports" 1 0 (fun _ l => l)
    (by decide) (by norm_num) (fun i l => List.Perm.refl l)
  exact ⟨h.1, h.2.1⟩

end NewsApp
